import Mathlib

/-!
Shallow embedding of the signal-generation, decision and execution pipeline of
the crypto-technical-analysis-ai repository (TypeScript), for checking its
natural-language specification.

Numbers: the TypeScript `number` values that the verified claims depend on are
modelled as exact rationals (`ℚ`); `Math.floor` is `Int.floor`, `Math.round x`
is `⌊x + 1/2⌋`, and JavaScript division by zero (whose IEEE result only flows
into comparisons that then fail, as NaN comparisons do) is modelled by total
rational division.  String-literal union types ("BUY" | "SELL", …) are kept as
strings.  The third-party `technicalindicators` library (RSI, MACD,
BollingerBands, EMA, SMA) is not part of the repository; its calculation
routines are modelled below from the standard formulas the library implements,
and every claim proved here is insensitive to the numeric values those
routines return.
-/

namespace CTA

/- The Batteries rational primitives are `@[irreducible]`, which blocks the
`decide` front end on concrete rational arithmetic; proofs on concrete inputs
below re-enable their unfolding. -/
attribute [local semireducible] Rat.add Rat.mul Rat.sub Rat.inv Rat.ofScientific

/-- JavaScript `Math.round`: round half towards positive infinity. -/
def jsRound (q : ℚ) : ℤ := ⌊q + 1/2⌋

/-- JavaScript `x.toFixed(p)` reparsed as a number: rounding to `p` decimal
places (model of the float formatting in `calculateOrderQty`). -/
def jsToFixed (q : ℚ) (p : ℕ) : ℚ := ((jsRound (q * 10 ^ p) : ℤ) : ℚ) / 10 ^ p

/-- Linear-scan integer square root (kernel-reducible); only used inside
`floatSqrt`, whose value no proved claim depends on. -/
def natSqrtLinear (n : ℕ) : ℕ :=
  (((List.range (n + 1)).filter fun k => k * k ≤ n).foldl (fun _ k => k) 0)

/-- Rational model of the floating-point square root used by the
`technicalindicators` library for the Bollinger standard deviation: for
`q = n / d ≥ 0` it returns `isqrt (n * d) / d`.  No proved claim depends on
its value. -/
def floatSqrt (q : ℚ) : ℚ :=
  if q ≤ 0 then 0 else (natSqrtLinear (q.num.toNat * q.den) : ℚ) / (q.den : ℚ)

/-- JavaScript `x || d` on an optional number: `undefined`, and the falsy
value `0`, fall back to the default. -/
def jsOrElse (o : Option ℚ) (d : ℚ) : ℚ :=
  match o with
  | some v => if v = 0 then d else v
  | none => d

/-- Successive differences of a list (`values[i+1] - values[i]`). -/
def diffs : List ℚ → List ℚ
  | a :: b :: rest => (b - a) :: diffs (b :: rest)
  | _ => []

/-! ## Configuration constants

From `src/config/config.ts` and `src/config/bybit.ts` (environment-variable
defaults). -/

def configRsiPeriod : ℕ := 14
def configRsiOverbought : ℚ := 70
def configRsiOversold : ℚ := 30
def configMacdFastPeriod : ℕ := 12
def configMacdSlowPeriod : ℕ := 26
def configMacdSignalPeriod : ℕ := 9
def configBollingerPeriod : ℕ := 20
def configBollingerStdDev : ℚ := 2
def configVolumePeriod : ℕ := 20
def configAlertThreshold : ℚ := 5

def DEFAULT_TRADE_SIZE_USD : ℚ := 50
def MAX_LEVERAGE : ℚ := 5
def DEFAULT_ORDER_TYPE : String := "Market"
def TAKE_PROFIT_PERCENTAGE : ℚ := 3
def STOP_LOSS_PERCENTAGE : ℚ := 3/2

/-! ## Data model (`src/types/index.ts`) -/

/-- One OHLCV candle. -/
structure Candle where
  timestamp : ℤ
  openPrice : ℚ
  high : ℚ
  low : ℚ
  close : ℚ
  volume : ℚ
deriving DecidableEq

structure RSIResult where
  timestamp : ℤ
  value : ℚ
  isOverbought : Bool
  isOversold : Bool
deriving DecidableEq

structure MACDResult where
  timestamp : ℤ
  macd : ℚ
  signal : ℚ
  histogram : ℚ
  isBullish : Bool
  isBearish : Bool
deriving DecidableEq

structure BollingerBandsResult where
  timestamp : ℤ
  upper : ℚ
  middle : ℚ
  lower : ℚ
  isAboveUpper : Bool
  isBelowLower : Bool
  bandwidth : ℚ
deriving DecidableEq

/-- The summary object `calculateEMACross` returns (the repository uses the
summary fields only: signal, strength, crossover and the two EMA series). -/
structure EMACrossSummary where
  signal : String
  direction : String
  strength : ℚ
  crossover : Bool
  shortEma : List ℚ
  longEma : List ℚ
  message : String
deriving DecidableEq

structure VolumeAnalysisResult where
  timestamp : ℤ
  volume : ℚ
  averageVolume : ℚ
  isHighVolume : Bool
  volumeChange : ℚ
deriving DecidableEq

/-- A discrete market signal; `action` is one of "BUY", "SELL", "HOLD",
"WATCH". -/
structure MarketSignal where
  symbol : String
  timeframe : String
  timestamp : ℤ
  price : ℚ
  signalType : String
  indicator : String
  strength : ℚ
  message : String
  action : String
deriving DecidableEq

structure AnalysisIndicators where
  rsi : Option RSIResult
  macd : Option MACDResult
  bollinger : Option BollingerBandsResult
  emaCross : List EMACrossSummary
  volumeAnalysis : Option VolumeAnalysisResult
deriving DecidableEq

structure AnalysisSummary where
  bullishSignals : ℕ
  bearishSignals : ℕ
  neutralSignals : ℕ
  overallSentiment : String
  confidenceScore : ℚ
deriving DecidableEq

structure AnalysisResult where
  symbol : String
  timeframe : String
  timestamp : ℤ
  price : ℚ
  indicators : AnalysisIndicators
  signals : List MarketSignal
  summary : AnalysisSummary
deriving DecidableEq

/-! ## Models of the `technicalindicators` library routines -/

/-- Modelled from the `technicalindicators` SMA: sliding-window means, one
output per window, aligned to the tail of the input. -/
def smaCalculate (period : ℕ) (values : List ℚ) : List ℚ :=
  if period = 0 then []
  else
    (List.range (values.length + 1 - period)).map fun i =>
      ((values.drop i).take period).sum / (period : ℚ)

/-- Modelled from the `technicalindicators` EMA: seeded with the simple mean
of the first `period` values, then `ema = (v - prev) * k + prev` with
`k = 2 / (period + 1)`; output length is `values.length - period + 1`. -/
def emaCalculate (period : ℕ) (values : List ℚ) : List ℚ :=
  if period = 0 ∨ values.length < period then []
  else
    let seed := (values.take period).sum / (period : ℚ)
    let k : ℚ := 2 / ((period : ℚ) + 1)
    (values.drop period).scanl (fun prev v => (v - prev) * k + prev) seed

/-- RSI value from the running Wilder averages of gains and losses (the
library's NaN/Infinity edge cases at zero average loss are modelled by total
rational division). -/
def rsiFromAvg (g l : ℚ) : ℚ := 100 - 100 / (1 + g / l)

/-- Modelled from the `technicalindicators` RSI: Wilder smoothing of average
gain and average loss over the successive price changes; output length is
`values.length - period`. -/
def rsiCalculate (period : ℕ) (values : List ℚ) : List ℚ :=
  let ch := diffs values
  if period = 0 ∨ ch.length < period then []
  else
    let g0 := ((ch.take period).map fun c => max c 0).sum / (period : ℚ)
    let l0 := ((ch.take period).map fun c => max (-c) 0).sum / (period : ℚ)
    (((ch.drop period).scanl
        (fun a c =>
          ((a.1 * ((period : ℚ) - 1) + max c 0) / (period : ℚ),
           (a.2 * ((period : ℚ) - 1) + max (-c) 0) / (period : ℚ)))
        (g0, l0)).map fun a => rsiFromAvg a.1 a.2)

/-- One raw MACD output row; `signal`/`histogram` are absent for the rows
before the signal EMA has warmed up (the caller coalesces them with `|| 0`). -/
structure MacdRaw where
  macd : ℚ
  signal : Option ℚ
  histogram : Option ℚ
deriving DecidableEq

/-- Modelled from the `technicalindicators` MACD (EMA oscillator and EMA
signal line): fast EMA minus slow EMA aligned on their common tail, signal =
EMA of that difference, histogram = difference minus signal. -/
def macdCalculate (fastPeriod slowPeriod signalPeriod : ℕ) (values : List ℚ) :
    List MacdRaw :=
  let fastE := emaCalculate fastPeriod values
  let slowE := emaCalculate slowPeriod values
  let line := (fastE.drop (fastE.length - slowE.length)).zipWith (fun a b => a - b) slowE
  let sigE := emaCalculate signalPeriod line
  let pad := line.length - sigE.length
  (List.range line.length).map fun i =>
    if i < pad then { macd := line.getD i 0, signal := none, histogram := none }
    else
      { macd := line.getD i 0,
        signal := some (sigE.getD (i - pad) 0),
        histogram := some (line.getD i 0 - sigE.getD (i - pad) 0) }

/-- One raw Bollinger output row. -/
structure BBRaw where
  upper : ℚ
  middle : ℚ
  lower : ℚ
deriving DecidableEq

/-- Modelled from the `technicalindicators` BollingerBands: SMA middle band
plus/minus `stdDev` population standard deviations of the window. -/
def bbCalculate (period : ℕ) (stdDev : ℚ) (values : List ℚ) : List BBRaw :=
  if period = 0 then []
  else
    (List.range (values.length + 1 - period)).map fun i =>
      let w := (values.drop i).take period
      let middle := w.sum / (period : ℚ)
      let variance := (w.map fun v => (v - middle) * (v - middle)).sum / (period : ℚ)
      let sd := floatSqrt variance
      { upper := middle + stdDev * sd, middle := middle, lower := middle - stdDev * sd }

/-! ## `TechnicalAnalysisService` indicator wrappers
(`src/services/technicalAnalysisService.ts`) -/

/-- Source `calculateRSI`: throws when too few candles, else tail-aligns the
RSI series with the candle timestamps and flags overbought/oversold against
the configured thresholds. -/
def calculateRSI (candles : List Candle) (period : ℕ := configRsiPeriod) :
    Except String (List RSIResult) :=
  if candles.length < period then
    .error ("Not enough candles for RSI calculation.")
  else
    let prices := candles.map (·.close)
    let timestamps := candles.map (·.timestamp)
    let rsiValues := rsiCalculate period prices
    let paddingLength := prices.length - rsiValues.length
    .ok ((rsiValues.zip (timestamps.drop paddingLength)).map fun p =>
      { timestamp := p.2, value := p.1,
        isOverbought := decide (p.1 ≥ configRsiOverbought),
        isOversold := decide (p.1 ≤ configRsiOversold) })

/-- Flag rows of `calculateMACD`, carrying the previous histogram value
(initially 0) for the rising/falling comparison. -/
def macdRows : ℚ → List (ℤ × MacdRaw) → List MACDResult
  | _, [] => []
  | prevHistogram, (t, raw) :: rest =>
    let histogramValue := raw.histogram.getD 0
    { timestamp := t,
      macd := raw.macd,
      signal := raw.signal.getD 0,
      histogram := histogramValue,
      isBullish := decide ((histogramValue > 0 ∧ histogramValue > prevHistogram) ∨
        (histogramValue < 0 ∧ histogramValue > prevHistogram)),
      isBearish := decide ((histogramValue < 0 ∧ histogramValue < prevHistogram) ∨
        (histogramValue > 0 ∧ histogramValue < prevHistogram)) } :: macdRows histogramValue rest

/-- Source `calculateMACD`: throws when too few candles, else tail-aligns the
MACD rows with the candle timestamps (absent warm-up signal/histogram values
are coalesced with `|| 0`). -/
def calculateMACD (candles : List Candle)
    (fastPeriod : ℕ := configMacdFastPeriod) (slowPeriod : ℕ := configMacdSlowPeriod)
    (signalPeriod : ℕ := configMacdSignalPeriod) : Except String (List MACDResult) :=
  if candles.length < slowPeriod + signalPeriod then
    .error ("Not enough candles for MACD calculation.")
  else
    let prices := candles.map (·.close)
    let timestamps := candles.map (·.timestamp)
    let macdValues := macdCalculate fastPeriod slowPeriod signalPeriod prices
    let paddingLength := prices.length - macdValues.length
    .ok (macdRows 0 ((timestamps.drop paddingLength).zip macdValues))

/-- Source `calculateBollingerBands`: throws when too few candles, else
tail-aligns the band rows, flags price above/below the bands and computes
`bandwidth = (upper - lower) / middle`. -/
def calculateBollingerBands (candles : List Candle)
    (period : ℕ := configBollingerPeriod) (stdDev : ℚ := configBollingerStdDev) :
    Except String (List BollingerBandsResult) :=
  if candles.length < period then
    .error ("Not enough candles for Bollinger Bands calculation.")
  else
    let prices := candles.map (·.close)
    let timestamps := candles.map (·.timestamp)
    let bbValues := bbCalculate period stdDev prices
    let paddingLength := prices.length - bbValues.length
    .ok ((List.range bbValues.length).map fun i =>
      let bb := bbValues.getD i { upper := 0, middle := 0, lower := 0 }
      let currentPrice := prices.getD (i + paddingLength) 0
      { timestamp := timestamps.getD (i + paddingLength) 0,
        upper := bb.upper, middle := bb.middle, lower := bb.lower,
        isAboveUpper := decide (currentPrice > bb.upper),
        isBelowLower := decide (currentPrice < bb.lower),
        bandwidth := (bb.upper - bb.lower) / bb.middle })

/-- One cross-detection row of `calculateEMACross`. -/
structure EmaCrossRow where
  isCrossOver : Bool
  isCrossUnder : Bool
deriving DecidableEq

/-- Source `calculateEMACross`: early neutral summary when too few candles;
otherwise the fast EMA is left-padded to the slow length (the JavaScript
`null` padding entries behave as 0 in the relational comparisons, and are
modelled as 0), adjacent pairs are scanned for crossovers, and the summary is
read off the last row.  The summary's `crossover` field is the last row's
`isCrossOver` only, so a cross-under never sets it. -/
def calculateEMACross (candles : List Candle) (fastPeriod slowPeriod : ℕ) :
    EMACrossSummary :=
  if candles.length < max fastPeriod slowPeriod + 5 then
    { signal := "neutral", direction := "none", strength := 0, crossover := false,
      shortEma := [], longEma := [],
      message := "Not enough data for EMA cross calculation." }
  else
    let prices := candles.map (·.close)
    let fastEMA := emaCalculate fastPeriod prices
    let slowEMA := emaCalculate slowPeriod prices
    let paddingLength := prices.length - slowEMA.length
    let fastEMAPadded :=
      List.replicate paddingLength (0 : ℚ) ++ fastEMA.drop (fastEMA.length - slowEMA.length)
    let pairs := fastEMAPadded.zip slowEMA
    let rows := (pairs.zip (pairs.drop 1)).map fun p =>
      ({ isCrossOver := decide (p.1.1 ≤ p.1.2 ∧ p.2.1 > p.2.2),
         isCrossUnder := decide (p.1.1 ≥ p.1.2 ∧ p.2.1 < p.2.2) } : EmaCrossRow)
    match rows.getLast? with
    | none =>
      { signal := "neutral", direction := "none", strength := 0, crossover := false,
        shortEma := fastEMA, longEma := slowEMA, message := "No EMA cross detected" }
    | some last =>
      { signal := if last.isCrossOver then "bullish" else "bearish",
        direction := if last.isCrossOver then "up" else "down",
        strength := 7,
        crossover := last.isCrossOver,
        shortEma := fastEMA, longEma := slowEMA,
        message := "EMA crossover" }

/-- Source `analyzeVolume`: throws when too few candles, else compares each
volume with its SMA; high volume is more than 1.5 times the average. -/
def analyzeVolume (candles : List Candle) (period : ℕ := configVolumePeriod) :
    Except String (List VolumeAnalysisResult) :=
  if candles.length < period then
    .error ("Not enough candles for volume analysis.")
  else
    let volumes := candles.map (·.volume)
    let timestamps := candles.map (·.timestamp)
    let volumeSMA := smaCalculate period volumes
    let paddingLength := volumes.length - volumeSMA.length
    .ok ((List.range volumeSMA.length).map fun i =>
      let currentVolume := volumes.getD (i + paddingLength) 0
      let averageVolume := volumeSMA.getD i 0
      { timestamp := timestamps.getD (i + paddingLength) 0,
        volume := currentVolume,
        averageVolume := averageVolume,
        isHighVolume := decide (currentVolume > averageVolume * 1.5),
        volumeChange := (currentVolume - averageVolume) / averageVolume * 100 })

/-! ## `analyzeMarket` signal generation (`src/services/technicalAnalysisService.ts`)

The sequential `signals.push` calls of the source are modelled as the
concatenation, in push order, of one conditional list per block.  The
interpolated numeric text of the source's message strings is elided. -/

def defaultCandle : Candle :=
  { timestamp := 0, openPrice := 0, high := 0, low := 0, close := 0, volume := 0 }

def defaultMACDResult : MACDResult :=
  { timestamp := 0, macd := 0, signal := 0, histogram := 0, isBullish := false, isBearish := false }

def defaultRSIResult : RSIResult :=
  { timestamp := 0, value := 0, isOverbought := false, isOversold := false }

def defaultBollingerResult : BollingerBandsResult :=
  { timestamp := 0, upper := 0, middle := 0, lower := 0,
    isAboveUpper := false, isBelowLower := false, bandwidth := 0 }

/-- RSI block: oversold/overbought on the latest row, then the 5-bar
divergence checks. -/
def rsiSignals (symbol timeframe : String) (timestamp : ℤ) (currentPrice : ℚ)
    (candles : List Candle) (rsiResults : List RSIResult) : List MarketSignal :=
  match rsiResults.getLast? with
  | none => []
  | some latestRSI =>
    (if latestRSI.isOversold then
      [{ symbol, timeframe, timestamp, price := currentPrice, signalType := "OVERSOLD",
         indicator := "RSI", strength := 7, message := "RSI is oversold", action := "BUY" }]
     else if latestRSI.isOverbought then
      [{ symbol, timeframe, timestamp, price := currentPrice, signalType := "OVERBOUGHT",
         indicator := "RSI", strength := 7, message := "RSI is overbought", action := "SELL" }]
     else []) ++
    (if 5 < rsiResults.length then
      (if (candles.getD (candles.length - 1) defaultCandle).close <
            (candles.getD (candles.length - 5) defaultCandle).close ∧
          (rsiResults.getD (rsiResults.length - 1) defaultRSIResult).value >
            (rsiResults.getD (rsiResults.length - 5) defaultRSIResult).value then
        [{ symbol, timeframe, timestamp, price := currentPrice, signalType := "BULLISH_DIVERGENCE",
           indicator := "RSI", strength := 8,
           message := "Bullish divergence detected (price down, RSI up)", action := "BUY" }]
       else []) ++
      (if (candles.getD (candles.length - 1) defaultCandle).close >
            (candles.getD (candles.length - 5) defaultCandle).close ∧
          (rsiResults.getD (rsiResults.length - 1) defaultRSIResult).value <
            (rsiResults.getD (rsiResults.length - 5) defaultRSIResult).value then
        [{ symbol, timeframe, timestamp, price := currentPrice, signalType := "BEARISH_DIVERGENCE",
           indicator := "RSI", strength := 8,
           message := "Bearish divergence detected (price up, RSI down)", action := "SELL" }]
       else [])
     else [])

/-- MACD block: histogram sign change against the second-to-last row. -/
def macdSignals (symbol timeframe : String) (timestamp : ℤ) (currentPrice : ℚ)
    (macdResults : List MACDResult) : List MarketSignal :=
  match macdResults.getLast? with
  | none => []
  | some latestMACD =>
    if latestMACD.histogram > 0 ∧
        (macdResults.getD (macdResults.length - 2) defaultMACDResult).histogram ≤ 0 then
      [{ symbol, timeframe, timestamp, price := currentPrice, signalType := "BULLISH_CROSS",
         indicator := "MACD", strength := 6, message := "MACD bullish cross detected",
         action := "BUY" }]
    else if latestMACD.histogram < 0 ∧
        (macdResults.getD (macdResults.length - 2) defaultMACDResult).histogram ≥ 0 then
      [{ symbol, timeframe, timestamp, price := currentPrice, signalType := "BEARISH_CROSS",
         indicator := "MACD", strength := 6, message := "MACD bearish cross detected",
         action := "SELL" }]
    else []

/-- Bollinger block: price outside the bands, then the 10-bar squeeze. -/
def bollingerSignals (symbol timeframe : String) (timestamp : ℤ) (currentPrice : ℚ)
    (bollingerResults : List BollingerBandsResult) : List MarketSignal :=
  match bollingerResults.getLast? with
  | none => []
  | some latestBB =>
    (if latestBB.isAboveUpper then
      [{ symbol, timeframe, timestamp, price := currentPrice,
         signalType := "PRICE_ABOVE_UPPER_BAND", indicator := "BOLLINGER", strength := 5,
         message := "Price above upper Bollinger Band", action := "SELL" }]
     else if latestBB.isBelowLower then
      [{ symbol, timeframe, timestamp, price := currentPrice,
         signalType := "PRICE_BELOW_LOWER_BAND", indicator := "BOLLINGER", strength := 5,
         message := "Price below lower Bollinger Band", action := "BUY" }]
     else []) ++
    (if 10 < bollingerResults.length then
      if (bollingerResults.getD (bollingerResults.length - 1) defaultBollingerResult).bandwidth <
          (bollingerResults.getD (bollingerResults.length - 10) defaultBollingerResult).bandwidth * 0.8 then
        [{ symbol, timeframe, timestamp, price := currentPrice, signalType := "BOLLINGER_SQUEEZE",
           indicator := "BOLLINGER", strength := 7,
           message := "Bollinger Bands squeezing (potential breakout)", action := "WATCH" }]
      else []
     else [])

/-- One entry of the EMA-cross `forEach`: a signal only when the summary's
`crossover` flag is set, typed and directed by its `signal` field. -/
def emaSignalFor (symbol timeframe : String) (timestamp : ℤ) (currentPrice : ℚ)
    (periods : String) (strength : ℚ) (cross : EMACrossSummary) : List MarketSignal :=
  if cross.crossover then
    [{ symbol, timeframe, timestamp, price := currentPrice,
       signalType := if cross.signal = "bullish" then "EMA_CROSS_OVER" else "EMA_CROSS_UNDER",
       indicator := "EMA_" ++ periods, strength,
       message := "EMA crossover",
       action := if cross.signal = "bullish" then "BUY" else "SELL" }]
  else []

/-- EMA block: the three period pairs with horizon-tiered strengths. -/
def emaSignals (symbol timeframe : String) (timestamp : ℤ) (currentPrice : ℚ)
    (emaCross0 emaCross1 emaCross2 : EMACrossSummary) : List MarketSignal :=
  emaSignalFor symbol timeframe timestamp currentPrice ("9/21") 5 emaCross0 ++
  emaSignalFor symbol timeframe timestamp currentPrice ("21/50") 7 emaCross1 ++
  emaSignalFor symbol timeframe timestamp currentPrice ("50/200") 9 emaCross2

/-- Volume block: a directional signal on a high-volume latest bar. -/
def volumeSignals (symbol timeframe : String) (timestamp : ℤ) (currentPrice : ℚ)
    (candles : List Candle) (volumeResults : List VolumeAnalysisResult) : List MarketSignal :=
  match volumeResults.getLast? with
  | none => []
  | some latestVolume =>
    if latestVolume.isHighVolume then
      let priceIncrease := (candles.getD (candles.length - 1) defaultCandle).close >
        (candles.getD (candles.length - 2) defaultCandle).close
      [{ symbol, timeframe, timestamp, price := currentPrice,
         signalType := if priceIncrease then "HIGH_VOLUME_BULLISH" else "HIGH_VOLUME_BEARISH",
         indicator := "VOLUME", strength := 6, message := "High volume detected",
         action := if priceIncrease then "BUY" else "SELL" }]
    else []

/-- All of `analyzeMarket`'s signal pushes, in source order. -/
def buildSignals (symbol timeframe : String) (timestamp : ℤ) (currentPrice : ℚ)
    (candles : List Candle) (rsiResults : List RSIResult) (macdResults : List MACDResult)
    (bollingerResults : List BollingerBandsResult)
    (emaCross0 emaCross1 emaCross2 : EMACrossSummary)
    (volumeResults : List VolumeAnalysisResult) : List MarketSignal :=
  rsiSignals symbol timeframe timestamp currentPrice candles rsiResults ++
  macdSignals symbol timeframe timestamp currentPrice macdResults ++
  bollingerSignals symbol timeframe timestamp currentPrice bollingerResults ++
  emaSignals symbol timeframe timestamp currentPrice emaCross0 emaCross1 emaCross2 ++
  volumeSignals symbol timeframe timestamp currentPrice candles volumeResults

/-- Source summary computation: bullish/bearish/neutral counts, the
1.5-ratio sentiment rule, and
`confidenceScore = round(totalStrength / (10 * signalCount) * 100)`,
0 when there is no signal. -/
def summaryOf (signals : List MarketSignal) : AnalysisSummary :=
  let bullishSignals := (signals.filter fun s => s.action = "BUY").length
  let bearishSignals := (signals.filter fun s => s.action = "SELL").length
  let neutralSignals := (signals.filter fun s => s.action = "WATCH" ∨ s.action = "HOLD").length
  let overallSentiment :=
    if (bullishSignals : ℚ) > (bearishSignals : ℚ) * 1.5 then "BULLISH"
    else if (bearishSignals : ℚ) > (bullishSignals : ℚ) * 1.5 then "BEARISH"
    else "NEUTRAL"
  let totalSignalStrength := signals.foldl (fun sum s => sum + s.strength) 0
  let maxPossibleStrength : ℚ := (signals.length : ℚ) * 10
  let confidenceScore : ℚ :=
    if maxPossibleStrength > 0 then
      ((jsRound (totalSignalStrength / maxPossibleStrength * 100) : ℤ) : ℚ)
    else 0
  { bullishSignals, bearishSignals, neutralSignals, overallSentiment, confidenceScore }

/-- Source `analyzeMarket`: requires at least 50 candles, runs every
indicator, derives the discrete signals and aggregates the summary.  The
indicator wrappers' own `throw`s propagate (with the default configuration
they cannot fire once the 50-candle gate has passed). -/
def analyzeMarket (symbol timeframe : String) (candles : List Candle) :
    Except String AnalysisResult :=
  if candles.length < 50 then
    .error ("Not enough candles for comprehensive analysis")
  else
    match calculateRSI candles, calculateMACD candles,
        calculateBollingerBands candles, analyzeVolume candles with
    | .ok rsiResults, .ok macdResults, .ok bollingerResults, .ok volumeResults =>
      let currentPrice := (candles.getD (candles.length - 1) defaultCandle).close
      let timestamp := (candles.getD (candles.length - 1) defaultCandle).timestamp
      let emaCross0 := calculateEMACross candles 9 21
      let emaCross1 := calculateEMACross candles 21 50
      let emaCross2 := calculateEMACross candles 50 200
      let signals := buildSignals symbol timeframe timestamp currentPrice candles
        rsiResults macdResults bollingerResults emaCross0 emaCross1 emaCross2 volumeResults
      .ok { symbol, timeframe, timestamp, price := currentPrice,
            indicators :=
              { rsi := rsiResults.getLast?, macd := macdResults.getLast?,
                bollinger := bollingerResults.getLast?,
                emaCross := [emaCross0, emaCross1, emaCross2],
                volumeAnalysis := volumeResults.getLast? },
            signals := signals,
            summary := summaryOf signals }
    | .error e, _, _, _ => .error e
    | _, .error e, _, _ => .error e
    | _, _, .error e, _ => .error e
    | _, _, _, .error e => .error e

/-! ## `PositionSizeManager` (`src/utils/positionSizeManager.ts`) -/

structure PositionSizeManager where
  accountSize : ℚ
  maxRiskPerTrade : ℚ
  defaultPositionSize : ℚ
  maxLeverage : ℚ
deriving DecidableEq

/-- The manager's constructor defaults (`accountSize = 1000`,
`maxRiskPerTrade = 2`, `DEFAULT_TRADE_SIZE_USD`, `MAX_LEVERAGE`). -/
def defaultPositionSizeManager : PositionSizeManager :=
  { accountSize := 1000, maxRiskPerTrade := 2,
    defaultPositionSize := DEFAULT_TRADE_SIZE_USD, maxLeverage := MAX_LEVERAGE }

/-- Source `calculateLeverage`: 5-bucket step function on the confidence
score (the top bucket takes `maxLeverage` itself, unfloored), clamped to
`[1, maxLeverage]`. -/
def calculateLeverage (m : PositionSizeManager) (analysis : AnalysisResult) : ℚ :=
  let confidenceScore := analysis.summary.confidenceScore
  let leverage : ℚ :=
    if confidenceScore ≥ 90 then m.maxLeverage
    else if confidenceScore ≥ 80 then ((⌊m.maxLeverage * 0.8⌋ : ℤ) : ℚ)
    else if confidenceScore ≥ 70 then ((⌊m.maxLeverage * 0.6⌋ : ℤ) : ℚ)
    else if confidenceScore ≥ 60 then ((⌊m.maxLeverage * 0.4⌋ : ℤ) : ℚ)
    else ((⌊m.maxLeverage * 0.2⌋ : ℤ) : ℚ)
  max 1 (min leverage m.maxLeverage)

/-- Source `calculatePositionSize`: risk amount scaled by the same 5-bucket
factor table, then `max(defaultPositionSize, min(·, accountSize * 0.1))`. -/
def calculatePositionSize (m : PositionSizeManager) (analysis : AnalysisResult) : ℚ :=
  let confidenceScore := analysis.summary.confidenceScore
  let maxRiskAmount := m.accountSize * (m.maxRiskPerTrade / 100)
  let riskFactor : ℚ :=
    if confidenceScore ≥ 90 then 1
    else if confidenceScore ≥ 80 then 0.8
    else if confidenceScore ≥ 70 then 0.6
    else if confidenceScore ≥ 60 then 0.4
    else 0.2
  let positionSize := maxRiskAmount * riskFactor
  max m.defaultPositionSize (min positionSize (m.accountSize * 0.1))

/-! ## `StrategyService` (`src/services/strategyService.ts`) -/

/-- A trade signal as created by the strategy service and stored for the
executor (`src/models/tradeSignal.ts`).  The random string id and wall-clock
timestamp of the source are nondeterministic and are modelled by an integer
id assigned by the caller. -/
structure TradeSignal where
  id : ℤ
  symbol : String
  direction : String
  price : ℚ
  strategy : String
  strength : ℚ
  positionSizeUsd : ℚ
  leverage : ℚ
  executed : Bool
deriving DecidableEq

/-- Source `determineSignalDirection`: BEARISH sentiment sells, anything else
(including NEUTRAL) buys. -/
def determineSignalDirection (analysis : AnalysisResult) : String :=
  if analysis.summary.overallSentiment = "BEARISH" then "SELL" else "BUY"

/-- Source `determineStrategy` (the `|| 50` / `|| 0` defaults follow the
JavaScript falsy rule, so a present value of 0 also falls back). -/
def determineStrategy (analysis : AnalysisResult) : String :=
  let rsiValue := jsOrElse (analysis.indicators.rsi.map (·.value)) 50
  let macdValue := jsOrElse (analysis.indicators.macd.map (·.histogram)) 0
  if rsiValue ≤ 30 then "RSI_OVERSOLD"
  else if rsiValue ≥ 70 then "RSI_OVERBOUGHT"
  else if |macdValue| > 0.5 then (if macdValue > 0 then "MACD_BULLISH" else "MACD_BEARISH")
  else "TREND_FOLLOWING"

/-- Source `calculateMarketRiskFactor`: sequential multiplicative adjustments
clamped to `[0.5, 1.5]`. -/
def calculateMarketRiskFactor (analysis : AnalysisResult) : ℚ :=
  let f1 : ℚ := 1
  let f2 :=
    match analysis.indicators.bollinger with
    | some b => if b.bandwidth > 0.05 then f1 * (1 - b.bandwidth) else f1 * 1.1
    | none => f1
  let f3 :=
    match analysis.indicators.rsi with
    | some r =>
      if r.value > 70 ∨ r.value < 30 then f2 * 0.8
      else if r.value > 45 ∧ r.value < 55 then f2 * 1.1
      else f2
    | none => f2
  let f4 :=
    match analysis.indicators.macd with
    | some mr => f3 * (1 + min 0.3 (|mr.histogram| / 5))
    | none => f3
  let confidenceBonus := (analysis.summary.confidenceScore - 65) / 100
  let f5 := f4 * (1 + confidenceBonus)
  max 0.5 (min 1.5 f5)

/-- Source `StrategyService.processAnalysisResult`: returns the created
signal (`none` below the activation threshold) together with the list of
signals inserted into the database by `createSignal`. -/
def strategyProcessAnalysisResult (m : PositionSizeManager) (symbol : String)
    (analysis : AnalysisResult) : Option TradeSignal × List TradeSignal :=
  let direction := determineSignalDirection analysis
  let confidenceScore := analysis.summary.confidenceScore
  if confidenceScore < 65 then (none, [])
  else
    let strategy := determineStrategy analysis
    let marketRiskFactor := calculateMarketRiskFactor analysis
    let basePositionSize := calculatePositionSize m analysis
    let positionSize := ((jsRound (basePositionSize * marketRiskFactor) : ℤ) : ℚ)
    let baseLeverage := calculateLeverage m analysis
    let leverage := max 1 (min 10 ((jsRound (baseLeverage * marketRiskFactor) : ℤ) : ℚ))
    let strength := confidenceScore / 100
    let s : TradeSignal :=
      { id := 0, symbol, direction, price := analysis.price, strategy, strength,
        positionSizeUsd := positionSize, leverage, executed := false }
    (some s, [s])

/-! ## `AlertService` (`src/services/alertService.ts`) -/

/-- JavaScript `Map.set`: replace any entry under the key. -/
def mapSet (m : List (String × AnalysisResult)) (k : String) (v : AnalysisResult) :
    List (String × AnalysisResult) :=
  (k, v) :: m.filter fun p => p.1 ≠ k

/-- The cache key `symbol-timeframe`. -/
def alertKey (a : AnalysisResult) : String := a.symbol ++ "-" ++ a.timeframe

/-- Source `AlertService.processAnalysisResult` over the per-key cache of the
previous `AnalysisResult`: cold start stores and emits nothing; otherwise it
emits the strong signals whose (indicator, signalType) pair is new, a
sentiment-change alert and a 3-percent price-move alert, then replaces the
cache entry.  Returns (alerts, new cache). -/
def alertProcessAnalysisResult (alertThreshold : ℚ)
    (prevMap : List (String × AnalysisResult)) (analysis : AnalysisResult) :
    List MarketSignal × List (String × AnalysisResult) :=
  let key := alertKey analysis
  match prevMap.lookup key with
  | none => ([], mapSet prevMap key analysis)
  | some previous =>
    let strongSignals := analysis.signals.filter fun s => s.strength ≥ alertThreshold
    let newSignalAlerts := strongSignals.filter fun s =>
      ¬ previous.signals.any fun ps =>
        ps.indicator = s.indicator ∧ ps.signalType = s.signalType
    let sentimentAlerts :=
      if previous.summary.overallSentiment ≠ analysis.summary.overallSentiment then
        [{ symbol := analysis.symbol, timeframe := analysis.timeframe,
           timestamp := analysis.timestamp, price := analysis.price,
           signalType := "SENTIMENT_CHANGE", indicator := "COMBINED", strength := 8,
           message := "Market sentiment changed",
           action :=
             if analysis.summary.overallSentiment = "BULLISH" then "BUY"
             else if analysis.summary.overallSentiment = "BEARISH" then "SELL"
             else "WATCH" } ]
      else []
    let priceChangePercent := (analysis.price - previous.price) / previous.price * 100
    let priceAlerts :=
      if |priceChangePercent| ≥ 3 then
        [{ symbol := analysis.symbol, timeframe := analysis.timeframe,
           timestamp := analysis.timestamp, price := analysis.price,
           signalType := "PRICE_MOVEMENT", indicator := "PRICE", strength := 7,
           message := "Significant price movement",
           action := if priceChangePercent > 0 then "BUY" else "SELL" } ]
      else []
    (newSignalAlerts ++ sentimentAlerts ++ priceAlerts, mapSet prevMap key analysis)

/-! ## Trade executor (`src/services/tradeExecutor.ts`, `src/lib/bybitClient.ts`,
`src/models/tradeSignal.ts`, `src/models/order.ts`) -/

/-- Source `calculateTakeProfitPrice`: above entry for a long, below for a
short. -/
def calculateTakeProfitPrice (entryPrice : ℚ) (side : String)
    (percentage : ℚ := TAKE_PROFIT_PERCENTAGE) : ℚ :=
  if side = "Buy" then entryPrice * (1 + percentage / 100)
  else entryPrice * (1 - percentage / 100)

/-- Source `calculateStopLossPrice`: below entry for a long, above for a
short. -/
def calculateStopLossPrice (entryPrice : ℚ) (side : String)
    (percentage : ℚ := STOP_LOSS_PERCENTAGE) : ℚ :=
  if side = "Buy" then entryPrice * (1 - percentage / 100)
  else entryPrice * (1 + percentage / 100)

/-- JavaScript `String.prototype.endsWith`, computed on the character list
(extensionally the library's byte-level test, and kernel-evaluable). -/
def strEndsWith (s suffixStr : String) : Bool := suffixStr.data.isSuffixOf s.data

/-- Source `isInverseSymbol`: USD-quoted inverse perpetuals. -/
def isInverseSymbol (symbol : String) : Bool :=
  strEndsWith symbol ("USD") && !strEndsWith symbol ("USDT") && !strEndsWith symbol ("USDC")

/-- Source `getCategoryForSymbol`. -/
def getCategoryForSymbol (symbol : String) : String :=
  if strEndsWith symbol ("USDT") || strEndsWith symbol ("USDC") then "linear"
  else if isInverseSymbol symbol then "inverse"
  else "spot"

/-- The exchange's lot-size filter for a symbol, as `calculateOrderQty` reads
it.  The filter's decimal-string fields are modelled by their parsed values:
`qtyStepPrecision` is the number of decimals of the `qtyStep` string and
`basePrecisionInt` the `parseInt` of the `basePrecision` string. -/
structure LotSizeFilter where
  qtyStep : Option ℚ
  qtyStepPrecision : ℕ
  minOrderQty : Option ℚ
  basePrecision : Option ℚ
  basePrecisionInt : ℕ
deriving DecidableEq

/-- Source `calculateOrderQty` (pure part, after the instrument-info fetch):
quantity = notional / price (or the raw notional for inverse contracts),
floored to the exchange quantity step, raised to the minimum order quantity,
then formatted with `toFixed`. -/
def calculateOrderQty (info : LotSizeFilter) (symbol : String) (price : ℚ)
    (usdAmount : ℚ := DEFAULT_TRADE_SIZE_USD) : ℚ :=
  let category := getCategoryForSymbol symbol
  let qtyStep :=
    if category = "linear" ∨ category = "inverse" then info.qtyStep.getD 0.001
    else info.basePrecision.getD 0.001
  let minOrderQty := info.minOrderQty.getD 0.001
  let qtyPrecision :=
    if category = "linear" ∨ category = "inverse" then
      (if info.qtyStep.isSome then info.qtyStepPrecision else 3)
    else info.basePrecisionInt
  let quantity :=
    if category = "linear" then ((⌊(usdAmount / price) / qtyStep⌋ : ℤ) : ℚ) * qtyStep
    else ((⌊(if category = "inverse" then usdAmount else usdAmount / price) / qtyStep⌋ : ℤ) : ℚ) * qtyStep
  let quantity := if quantity < minOrderQty then minOrderQty else quantity
  jsToFixed quantity qtyPrecision

/-- An open position as `getPosition` reports it (`side` is "Buy" or "Sell",
`size` the contract quantity). -/
structure PositionInfo where
  side : String
  size : ℚ
deriving DecidableEq

/-- An order as submitted to the exchange. -/
structure SubmittedOrder where
  symbol : String
  side : String
  orderType : String
  qty : ℚ
  price : Option ℚ
  takeProfit : Option ℚ
  stopLoss : Option ℚ
  reduceOnly : Bool
deriving DecidableEq

/-- An order row as persisted by `OrderModel.createOrder`. -/
structure OrderRow where
  signalId : ℤ
  symbol : String
  side : String
  orderType : String
  price : Option ℚ
  qty : ℚ
  orderId : Option String
  orderStatus : Option String
deriving DecidableEq

/-- A `trade_signals` row (`src/db/schema.ts`): `isExecuted` is 0 for
pending, 1 for executed. -/
structure SignalRow where
  id : ℤ
  symbol : String
  direction : String
  price : ℚ
  strategy : String
  strength : ℚ
  isExecuted : ℕ
deriving DecidableEq

/-- The persistence state the executor touches. -/
structure Db where
  tradeSignals : List SignalRow
  orders : List OrderRow
deriving DecidableEq

/-- Source `getPendingSignals`: the rows with `isExecuted = 0`. -/
def getPendingSignals (db : Db) : List SignalRow :=
  db.tradeSignals.filter fun r => r.isExecuted = 0

/-- Source `markSignalAsExecuted`: set `isExecuted = 1` on the row with the
given id. -/
def dbMarkSignalAsExecuted (db : Db) (id : ℤ) : Db :=
  { db with tradeSignals := db.tradeSignals.map fun r =>
      if r.id = id then { r with isExecuted := 1 } else r }

/-- Source `OrderModel.createOrder`: insert the row. -/
def dbCreateOrder (db : Db) (row : OrderRow) : Db :=
  { db with orders := db.orders ++ [row] }

/-- The observable steps of one `executeSignalOrder` run, in order. -/
inductive ExecEvent where
  | getPosition (symbol : String)
  | submitOrder (o : SubmittedOrder)
  | sleep (ms : ℕ)
  | getPrice (symbol : String)
  | getInstrumentInfo (symbol : String)
  | setLeverage (symbol : String)
  | createOrderRow (row : OrderRow)
  | markExecuted (signalId : ℤ)
deriving DecidableEq

/-- The exchange's and store's responses for one `executeSignalOrder` run:
each asynchronous call the source makes is resolved from the corresponding
field (`.error` models the call throwing). -/
structure ExchangeEnv where
  position : Except String (Option PositionInfo)
  closeOrderId : Except String String
  currentPrice : Except String ℚ
  instrumentInfo : Except String LotSizeFilter
  newOrderId : Except String String
  createOrderRes : Except String Unit
  markExecutedRes : Except String Unit

/-- The closing order `closePosition` submits for an open position:
opposite side, full absolute size, reduce-only market order. -/
def closingOrder (symbol : String) (position : PositionInfo) : SubmittedOrder :=
  { symbol, side := if position.side = "Buy" then "Sell" else "Buy",
    orderType := "Market", qty := |position.size|, price := none,
    takeProfit := none, stopLoss := none, reduceOnly := true }

/-- The position-flip phase of `executeSignalOrder`: when a nonzero position
is open, submit the closing order (`closePosition` refuses spot symbols) and
pause 1000 ms for the API rate limit before continuing. -/
def closePhase (env : ExchangeEnv) (symbol : String)
    (positionOpt : Option PositionInfo) : Except String Unit × List ExecEvent :=
  match positionOpt with
  | some position =>
    if position.size ≠ 0 then
      if getCategoryForSymbol symbol = "spot" then
        (.error ("Spot trading position closure is not supported"), [])
      else
        match env.closeOrderId with
        | .error e => (.error e, [.submitOrder (closingOrder symbol position)])
        | .ok _ => (.ok (), [.submitOrder (closingOrder symbol position), .sleep 1000])
    else (.ok (), [])
  | none => (.ok (), [])

/-- The new order `executeSignalOrder` submits: a market order by default
configuration, or a limit order at a 0.1-percent better price, both carrying
the computed TP/SL. -/
def newOrderFor (symbol side : String) (currentPrice qty : ℚ) : SubmittedOrder :=
  if DEFAULT_ORDER_TYPE = "Market" then
    { symbol, side, orderType := "Market", qty, price := none,
      takeProfit := some (calculateTakeProfitPrice currentPrice side),
      stopLoss := some (calculateStopLossPrice currentPrice side),
      reduceOnly := false }
  else
    { symbol, side, orderType := "Limit", qty,
      price := some (if side = "Buy" then currentPrice * 0.999 else currentPrice * 1.001),
      takeProfit := some (calculateTakeProfitPrice currentPrice side),
      stopLoss := some (calculateStopLossPrice currentPrice side),
      reduceOnly := false }

/-- Source `executeSignalOrder` as a state transformer: returns the result
surfaced to the caller, the trace of observable steps, and the persistence
state after the run.  The step order is the source's: query the position,
flip any open one (with the rate-limit pause), fetch the price, compute the
quantity from the configured `DEFAULT_TRADE_SIZE_USD`, submit the new order
with TP/SL, persist the order row, and finally mark the signal executed.
Any failing step aborts with that error and no later step runs. -/
def executeSignalOrder (env : ExchangeEnv) (signal : TradeSignal) (db : Db) :
    Except String Unit × List ExecEvent × Db :=
  match env.position with
  | .error e => (.error e, [.getPosition signal.symbol], db)
  | .ok positionOpt =>
    match closePhase env signal.symbol positionOpt with
    | (.error e, closeEvents) => (.error e, .getPosition signal.symbol :: closeEvents, db)
    | (.ok _, closeEvents) =>
      match env.currentPrice with
      | .error e =>
        (.error e, .getPosition signal.symbol :: closeEvents ++ [.getPrice signal.symbol], db)
      | .ok currentPrice =>
        match env.instrumentInfo with
        | .error e =>
          (.error e, .getPosition signal.symbol :: closeEvents ++
            [.getPrice signal.symbol, .getInstrumentInfo signal.symbol], db)
        | .ok info =>
          let qty := calculateOrderQty info signal.symbol currentPrice DEFAULT_TRADE_SIZE_USD
          let side := if signal.direction = "BUY" then "Buy" else "Sell"
          let newOrder := newOrderFor signal.symbol side currentPrice qty
          let events3 := .getPosition signal.symbol :: closeEvents ++
            [.getPrice signal.symbol, .getInstrumentInfo signal.symbol,
             .setLeverage signal.symbol, .submitOrder newOrder]
          match env.newOrderId with
          | .error e => (.error e, events3, db)
          | .ok orderId =>
            let orderRow : OrderRow :=
              { signalId := signal.id, symbol := signal.symbol, side,
                orderType := DEFAULT_ORDER_TYPE, price := some currentPrice, qty,
                orderId := some orderId, orderStatus := some ("NEW") }
            match env.createOrderRes with
            | .error e => (.error e, events3 ++ [.createOrderRow orderRow], db)
            | .ok _ =>
              let db1 := dbCreateOrder db orderRow
              match env.markExecutedRes with
              | .error e =>
                (.error e, events3 ++ [.createOrderRow orderRow, .markExecuted signal.id], db1)
              | .ok _ =>
                (.ok (), events3 ++ [.createOrderRow orderRow, .markExecuted signal.id],
                 dbMarkSignalAsExecuted db1 signal.id)

/-- The orders a trace submits, in submission order. -/
def ordersOf (trace : List ExecEvent) : List SubmittedOrder :=
  trace.filterMap fun e =>
    match e with
    | .submitOrder o => some o
    | _ => none

/-! ## Scheduler (`src/services/scheduler.ts`) -/

/-- One log line with its level. -/
structure LogEntry where
  level : String
  message : String
deriving DecidableEq

/-- The scheduler module's state: the current `node-schedule` job handle (a
fresh id per scheduled job), the ids of cancelled jobs, and the log. -/
structure SchedulerState where
  signalProcessingJob : Option ℕ
  nextJobId : ℕ
  cancelledJobs : List ℕ
  log : List LogEntry
deriving DecidableEq

/-- Source `startSignalProcessing`: cancel any job already running, log at
info level, and schedule a fresh job. -/
def startSignalProcessing (st : SchedulerState) : SchedulerState :=
  let st1 :=
    match st.signalProcessingJob with
    | some j => { st with cancelledJobs := st.cancelledJobs ++ [j] }
    | none => st
  { st1 with
      log := st1.log ++ [⟨"info", "signal processing scheduler started"⟩],
      signalProcessingJob := some st1.nextJobId,
      nextJobId := st1.nextJobId + 1 }

/-- Source `stopSignalProcessing`: cancel the job and clear the handle when
one is running, else do nothing. -/
def stopSignalProcessing (st : SchedulerState) : SchedulerState :=
  match st.signalProcessingJob with
  | some j =>
    { st with
      cancelledJobs := st.cancelledJobs ++ [j]
      signalProcessingJob := none
      log := st.log ++ [⟨"info", "signal processing scheduler stopped"⟩] }
  | none => st

/-! ## Concrete inputs used by witnesses and counterexamples -/

/-- An analysis result carrying a given confidence score (the other fields
are immaterial to the position sizer and the strategy gate). -/
def analysisWithScore (score : ℚ) : AnalysisResult :=
  { symbol := "BTCUSDT", timeframe := "1h", timestamp := 0, price := 100,
    indicators := ⟨none, none, none, [], none⟩,
    signals := [],
    summary := ⟨0, 0, 0, "NEUTRAL", score⟩ }

/-- A policy state whose floor exceeds a tenth of the account: every field
positive, `defaultPositionSize = 50 > 10 = accountSize * 0.1`. -/
def cexManager : PositionSizeManager :=
  { accountSize := 100, maxRiskPerTrade := 2, defaultPositionSize := 50, maxLeverage := 5 }

/-- Fifty constant candles (the minimum length `analyzeMarket` accepts). -/
def witCandles : List Candle :=
  (List.range 50).map fun i =>
    { timestamp := (i : ℤ), openPrice := 100, high := 100, low := 100,
      close := 100, volume := 1000 }

/-- The analysis `analyzeMarket` produces on `witCandles`. -/
def witAnalysis : AnalysisResult :=
  match analyzeMarket ("BTCUSDT") ("1h") witCandles with
  | .ok r => r
  | .error _ => analysisWithScore 0

/-- An exchange environment in which every call succeeds and an open long of
size 10 is reported. -/
def witEnv : ExchangeEnv :=
  { position := .ok (some { side := "Buy", size := 10 }),
    closeOrderId := .ok ("close-1"),
    currentPrice := .ok 50000,
    instrumentInfo := .ok ⟨some (1/1000), 3, some (1/1000), none, 3⟩,
    newOrderId := .ok ("order-1"),
    createOrderRes := .ok (),
    markExecutedRes := .ok () }

/-- A pending SELL signal. -/
def witSellSignal : TradeSignal :=
  { id := 1, symbol := "BTCUSDT", direction := "SELL", price := 50000,
    strategy := "TREND_FOLLOWING", strength := 7/10, positionSizeUsd := 100,
    leverage := 5, executed := false }

/-- The same decision as `witSellSignal` with very different sizing. -/
def witSellSignalOtherSizing : TradeSignal :=
  { id := 2, symbol := "BTCUSDT", direction := "SELL", price := 50000,
    strategy := "TREND_FOLLOWING", strength := 7/10, positionSizeUsd := 9999,
    leverage := 1, executed := false }

/-- A store holding the pending row for `witSellSignal`. -/
def witDb : Db :=
  { tradeSignals := [⟨1, "BTCUSDT", "SELL", 50000, "TREND_FOLLOWING", 7/10, 0⟩],
    orders := [] }

/-- A scheduler state with a job (id 0) already running. -/
def witSchedulerState : SchedulerState :=
  { signalProcessingJob := some 0, nextJobId := 1, cancelledJobs := [], log := [] }

/-! # Theorems -/

/-- C7: for every entry price > 0 and percentage in (0,100), take-profit and
stop-loss are direction-aware: above/below entry for a Buy, inverted for a
Sell. -/
theorem tp_sl_direction_aware (entryPrice percentage : ℚ)
    (hp : 0 < entryPrice) (h0 : 0 < percentage) (h1 : percentage < 100) :
    entryPrice < calculateTakeProfitPrice entryPrice ("Buy") percentage
    ∧ calculateStopLossPrice entryPrice ("Buy") percentage < entryPrice
    ∧ calculateTakeProfitPrice entryPrice ("Sell") percentage < entryPrice
    ∧ entryPrice < calculateStopLossPrice entryPrice ("Sell") percentage := by
  have hps : 0 < entryPrice * (percentage / 100) := by positivity
  refine ⟨?_, ?_, ?_, ?_⟩ <;>
    simp only [calculateTakeProfitPrice, calculateStopLossPrice, if_pos, if_neg,
      reduceCtorEq, String.reduceEq, ite_true, ite_false] <;>
    nlinarith

/-- C7 witness: entry price 100, percentage 3. -/
theorem tp_sl_direction_aware_witness :
    (100 : ℚ) < calculateTakeProfitPrice 100 ("Buy") 3
    ∧ calculateStopLossPrice 100 ("Buy") 3 < 100
    ∧ calculateTakeProfitPrice 100 ("Sell") 3 < 100
    ∧ (100 : ℚ) < calculateStopLossPrice 100 ("Sell") 3 :=
  tp_sl_direction_aware 100 3 (by norm_num) (by norm_num) (by norm_num)

/-- C8 counterexample: starting the signal-processing scheduler while job 0
is running is not a no-op — the running job is cancelled and replaced by a
fresh one — and nothing is logged at warn level. -/
theorem startSignalProcessing_noop_counterexample :
    (startSignalProcessing witSchedulerState).signalProcessingJob ≠
      witSchedulerState.signalProcessingJob
    ∧ 0 ∈ (startSignalProcessing witSchedulerState).cancelledJobs
    ∧ ∀ entry ∈ (startSignalProcessing witSchedulerState).log, entry.level ≠ "warn" := by
  decide

/-- C8 amended: calling `startSignalProcessing` while the loop is already
running cancels the running job and schedules a fresh one (a restart, logged
at info level, not a warning); `stopSignalProcessing` clears the timer
handle. -/
theorem startSignalProcessing_restarts (st : SchedulerState) (j : ℕ)
    (h : st.signalProcessingJob = some j) :
    (startSignalProcessing st).signalProcessingJob = some st.nextJobId
    ∧ j ∈ (startSignalProcessing st).cancelledJobs
    ∧ (∀ entry ∈ (startSignalProcessing st).log, entry ∈ st.log ∨ entry.level = "info")
    ∧ (stopSignalProcessing st).signalProcessingJob = none
    ∧ (stopSignalProcessing (startSignalProcessing st)).signalProcessingJob = none := by
  refine ⟨?_, ?_, ?_, ?_, ?_⟩ <;>
    simp [startSignalProcessing, stopSignalProcessing, h]
  intro entry hentry
  rcases hentry with h1 | h1
  · exact Or.inl h1
  · exact Or.inr (by simp [h1])

/-- C8 amended witness: the concrete state with job 0 running. -/
theorem startSignalProcessing_restarts_witness :
    (startSignalProcessing witSchedulerState).signalProcessingJob =
      some witSchedulerState.nextJobId
    ∧ 0 ∈ (startSignalProcessing witSchedulerState).cancelledJobs
    ∧ (∀ entry ∈ (startSignalProcessing witSchedulerState).log,
        entry ∈ witSchedulerState.log ∨ entry.level = "info")
    ∧ (stopSignalProcessing witSchedulerState).signalProcessingJob = none
    ∧ (stopSignalProcessing (startSignalProcessing witSchedulerState)).signalProcessingJob
        = none :=
  startSignalProcessing_restarts witSchedulerState 0 rfl

/-- C3: an analysis whose confidence score is below the activation threshold
(65 in the source) produces no trade signal and inserts nothing into the
store. -/
theorem strategy_below_threshold_returns_none (m : PositionSizeManager)
    (symbol : String) (analysis : AnalysisResult)
    (h : analysis.summary.confidenceScore < 65) :
    strategyProcessAnalysisResult m symbol analysis = (none, []) := by
  unfold strategyProcessAnalysisResult
  simp [h]

/-- C3 witness: confidence score 50 (the spec's Scenario B) yields no signal. -/
theorem strategy_below_threshold_returns_none_witness :
    strategyProcessAnalysisResult defaultPositionSizeManager ("BTCUSDT")
      (analysisWithScore 50) = (none, []) :=
  strategy_below_threshold_returns_none defaultPositionSizeManager ("BTCUSDT")
    (analysisWithScore 50) (by norm_num [analysisWithScore])

/-- C1 counterexample: with every policy field positive
(accountSize 100, maxRiskPerTrade 2, defaultPositionSize 50, maxLeverage 5)
and confidence score 50 in [0,100], `calculatePositionSize` returns 50,
strictly above `accountSize * 0.1 = 10`, so the claimed upper bound fails. -/
theorem calculatePositionSize_upper_bound_counterexample :
    0 < cexManager.accountSize ∧ 0 < cexManager.maxRiskPerTrade
    ∧ 0 < cexManager.defaultPositionSize ∧ 0 < cexManager.maxLeverage
    ∧ 0 ≤ (analysisWithScore 50).summary.confidenceScore
    ∧ (analysisWithScore 50).summary.confidenceScore ≤ 100
    ∧ calculatePositionSize cexManager (analysisWithScore 50) = 50
    ∧ cexManager.accountSize * 0.1 = 10
    ∧ ¬ calculatePositionSize cexManager (analysisWithScore 50) ≤
        cexManager.accountSize * 0.1 := by
  decide

/-- C1 amended: when additionally the configured floor fits under a tenth of
the account (`defaultPositionSize ≤ accountSize * 0.1`) and `maxLeverage` is
an integer at least 1, the notional lies in
`[defaultPositionSize, accountSize * 0.1]` and the leverage is an integer in
`[1, maxLeverage]`, for every analysis (any confidence score). -/
theorem positionSizer_bounds_amended (m : PositionSizeManager) (analysis : AnalysisResult)
    (hacct : 0 < m.accountSize) (hrisk : 0 < m.maxRiskPerTrade)
    (hdef : 0 < m.defaultPositionSize)
    (hfit : m.defaultPositionSize ≤ m.accountSize * 0.1)
    (L : ℕ) (hL : m.maxLeverage = (L : ℚ)) (hL1 : 1 ≤ L) :
    m.defaultPositionSize ≤ calculatePositionSize m analysis
    ∧ calculatePositionSize m analysis ≤ m.accountSize * 0.1
    ∧ 1 ≤ calculateLeverage m analysis
    ∧ calculateLeverage m analysis ≤ m.maxLeverage
    ∧ ∃ k : ℤ, calculateLeverage m analysis = (k : ℚ) := by
  have hL1Q : (1 : ℚ) ≤ m.maxLeverage := by
    rw [hL]; exact_mod_cast hL1
  unfold calculatePositionSize calculateLeverage
  refine ⟨le_max_left _ _, max_le hfit (min_le_right _ _), le_max_left _ _,
    max_le hL1Q (min_le_right _ _), ?_⟩
  dsimp only
  rw [hL]
  split_ifs
  · exact ⟨max 1 (min (L : ℤ) (L : ℤ)), by push_cast; rfl⟩
  · exact ⟨max 1 (min ⌊(L : ℚ) * 0.8⌋ (L : ℤ)), by push_cast; rfl⟩
  · exact ⟨max 1 (min ⌊(L : ℚ) * 0.6⌋ (L : ℤ)), by push_cast; rfl⟩
  · exact ⟨max 1 (min ⌊(L : ℚ) * 0.4⌋ (L : ℤ)), by push_cast; rfl⟩
  · exact ⟨max 1 (min ⌊(L : ℚ) * 0.2⌋ (L : ℤ)), by push_cast; rfl⟩

/-- C1 amended witness: the constructor defaults (account 1000, risk 2,
floor 50, max leverage 5) at confidence score 75. -/
theorem positionSizer_bounds_amended_witness :
    defaultPositionSizeManager.defaultPositionSize ≤
      calculatePositionSize defaultPositionSizeManager (analysisWithScore 75)
    ∧ calculatePositionSize defaultPositionSizeManager (analysisWithScore 75) ≤
        defaultPositionSizeManager.accountSize * 0.1
    ∧ 1 ≤ calculateLeverage defaultPositionSizeManager (analysisWithScore 75)
    ∧ calculateLeverage defaultPositionSizeManager (analysisWithScore 75) ≤
        defaultPositionSizeManager.maxLeverage
    ∧ ∃ k : ℤ, calculateLeverage defaultPositionSizeManager (analysisWithScore 75) = (k : ℚ) :=
  positionSizer_bounds_amended defaultPositionSizeManager (analysisWithScore 75)
    (by decide) (by decide) (by decide) (by decide) 5 (by decide) (by decide)

/-- Both branches of the alert processor replace the cache entry with the
current analysis. -/
theorem alertProcess_snd (t : ℚ) (m : List (String × AnalysisResult)) (a : AnalysisResult) :
    (alertProcessAnalysisResult t m a).2 = mapSet m (alertKey a) a := by
  unfold alertProcessAnalysisResult
  dsimp only
  rcases List.lookup (alertKey a) m with _ | prev <;> rfl

/-- Looking up the key just set returns the value just set. -/
theorem lookup_mapSet (m : List (String × AnalysisResult)) (k : String) (v : AnalysisResult) :
    (mapSet m k v).lookup k = some v := by
  simp [mapSet, List.lookup]

/-- C4: feeding the alert deduplicator the identical analysis twice in a row
yields no alert at all on the second call — in particular zero new
per-indicator alerts. -/
theorem alert_dedup_idempotent (alertThreshold : ℚ)
    (prevMap : List (String × AnalysisResult)) (analysis : AnalysisResult) :
    (alertProcessAnalysisResult alertThreshold
      (alertProcessAnalysisResult alertThreshold prevMap analysis).2 analysis).1 = [] := by
  rw [alertProcess_snd]
  unfold alertProcessAnalysisResult
  dsimp only
  rw [lookup_mapSet]
  dsimp only
  rw [sub_self, zero_div, zero_mul]
  rw [if_neg (by simp), if_neg (by norm_num)]
  simp only [List.append_nil]
  rw [List.filter_eq_nil]
  intro s hs
  have hmem : s ∈ analysis.signals := (List.mem_filter.mp hs).1
  simp only [decide_eq_true_eq, not_not, List.any_eq_true]
  exact ⟨s, hmem, rfl, rfl⟩

/-- Every order the position-flip phase submits is reduce-only. -/
theorem closePhase_orders_reduceOnly (env : ExchangeEnv) (symbol : String)
    (positionOpt : Option PositionInfo) :
    ∀ o ∈ ordersOf (closePhase env symbol positionOpt).2, o.reduceOnly = true := by
  unfold closePhase
  rcases positionOpt with _ | position
  · simp [ordersOf]
  · rcases env.closeOrderId with e | cid <;>
      by_cases hsz : position.size ≠ 0 <;>
      by_cases hcat : getCategoryForSymbol symbol = "spot" <;>
      simp [ordersOf, closingOrder, hsz, hcat]

/-- C5: when the exchange reports a nonzero open position and the closing
order goes through, the first order `executeSignalOrder` submits is the
opposite-side reduce-only close of the full open quantity, immediately
followed by the 1000 ms backoff pause, before anything else — in particular
before the new order, which can only appear later in the trace. -/
theorem executeSignalOrder_flips_open_position (env : ExchangeEnv)
    (signal : TradeSignal) (db : Db) (position : PositionInfo) (closeId : String)
    (hpos : env.position = .ok (some position)) (hsize : position.size ≠ 0)
    (hcat : getCategoryForSymbol signal.symbol ≠ "spot")
    (hclose : env.closeOrderId = .ok closeId) :
    ∃ rest, (executeSignalOrder env signal db).2.1 =
        ExecEvent.getPosition signal.symbol ::
        ExecEvent.submitOrder (closingOrder signal.symbol position) ::
        ExecEvent.sleep 1000 :: rest
      ∧ ordersOf (executeSignalOrder env signal db).2.1 =
          closingOrder signal.symbol position :: ordersOf rest
      ∧ (closingOrder signal.symbol position).side =
          (if position.side = "Buy" then "Sell" else "Buy")
      ∧ (closingOrder signal.symbol position).qty = |position.size|
      ∧ (closingOrder signal.symbol position).reduceOnly = true := by
  have hphase : closePhase env signal.symbol (some position) =
      (.ok (), [.submitOrder (closingOrder signal.symbol position), .sleep 1000]) := by
    unfold closePhase
    dsimp only
    rw [if_pos hsize, if_neg hcat, hclose]
  have htrace : ∃ rest, (executeSignalOrder env signal db).2.1 =
      ExecEvent.getPosition signal.symbol ::
      ExecEvent.submitOrder (closingOrder signal.symbol position) ::
      ExecEvent.sleep 1000 :: rest := by
    unfold executeSignalOrder
    rw [hpos]
    dsimp only
    rw [hphase]
    rcases env.currentPrice with e | price
    · exact ⟨_, rfl⟩
    · rcases env.instrumentInfo with e | info
      · exact ⟨_, rfl⟩
      · dsimp only
        rcases env.newOrderId with e | orderId
        · exact ⟨_, rfl⟩
        · dsimp only
          rcases env.createOrderRes with e | u
          · exact ⟨_, rfl⟩
          · dsimp only
            rcases env.markExecutedRes with e | u'
            · exact ⟨_, rfl⟩
            · exact ⟨_, rfl⟩
  obtain ⟨rest, hrest⟩ := htrace
  exact ⟨rest, hrest, by rw [hrest]; simp [ordersOf], rfl, rfl, rfl⟩

/-- C5 witness: an open long of size 10 and a SELL signal — the first
submitted order is a sell of quantity 10, then the pause. -/
theorem executeSignalOrder_flips_open_position_witness :
    ∃ rest, (executeSignalOrder witEnv witSellSignal witDb).2.1 =
        ExecEvent.getPosition witSellSignal.symbol ::
        ExecEvent.submitOrder (closingOrder witSellSignal.symbol ⟨"Buy", 10⟩) ::
        ExecEvent.sleep 1000 :: rest
      ∧ ordersOf (executeSignalOrder witEnv witSellSignal witDb).2.1 =
          closingOrder witSellSignal.symbol ⟨"Buy", 10⟩ :: ordersOf rest
      ∧ (closingOrder witSellSignal.symbol ⟨"Buy", 10⟩).side =
          (if ("Buy" : String) = "Buy" then "Sell" else "Buy")
      ∧ (closingOrder witSellSignal.symbol ⟨"Buy", 10⟩).qty = |(10 : ℚ)|
      ∧ (closingOrder witSellSignal.symbol ⟨"Buy", 10⟩).reduceOnly = true :=
  executeSignalOrder_flips_open_position witEnv witSellSignal witDb ⟨"Buy", 10⟩
    ("close-1") rfl (by norm_num) (by decide) rfl

/-- C6: a failing step surfaces its error and leaves the signal table — and
with it the pending sweep — untouched, so the signal stays PENDING for the
next sweep; a successful run marks exactly the signal's rows executed, after
which no row of its id is pending, and success requires every step
(position query, price fetch, instrument info, order submission, order
persistence, executed-mark) to have succeeded. -/
theorem executeSignalOrder_pending_semantics (env : ExchangeEnv)
    (signal : TradeSignal) (db : Db) :
    (∀ e, (executeSignalOrder env signal db).1 = .error e →
        ((executeSignalOrder env signal db).2.2).tradeSignals = db.tradeSignals
        ∧ getPendingSignals ((executeSignalOrder env signal db).2.2) = getPendingSignals db)
    ∧ ((executeSignalOrder env signal db).1 = .ok () →
        (∀ r ∈ ((executeSignalOrder env signal db).2.2).tradeSignals,
          r.id = signal.id → r.isExecuted = 1)
        ∧ (∀ r ∈ getPendingSignals ((executeSignalOrder env signal db).2.2),
            r.id ≠ signal.id)
        ∧ (∃ p, env.position = .ok p) ∧ (∃ q, env.currentPrice = .ok q)
        ∧ (∃ i, env.instrumentInfo = .ok i) ∧ (∃ oid, env.newOrderId = .ok oid)
        ∧ env.createOrderRes = .ok () ∧ env.markExecutedRes = .ok ()) := by
  unfold executeSignalOrder
  rcases hpos : env.position with e | positionOpt
  · exact ⟨fun e h => ⟨rfl, rfl⟩, by simp⟩
  · rcases hphase : closePhase env signal.symbol positionOpt with ⟨res, closeEvents⟩
    dsimp only
    rw [hphase]
    rcases res with e | u
    · exact ⟨fun e h => ⟨rfl, rfl⟩, by simp⟩
    · rcases hprice : env.currentPrice with e | price
      · exact ⟨fun e h => ⟨rfl, rfl⟩, by simp⟩
      · rcases hinfo : env.instrumentInfo with e | info
        · exact ⟨fun e h => ⟨rfl, rfl⟩, by simp⟩
        · dsimp only
          rcases hoid : env.newOrderId with e | orderId
          · exact ⟨fun e h => ⟨rfl, rfl⟩, by simp⟩
          · dsimp only
            rcases hco : env.createOrderRes with e | u'
            · exact ⟨fun e h => ⟨rfl, rfl⟩, by simp⟩
            · dsimp only
              rcases hme : env.markExecutedRes with e | u''
              · dsimp only
                exact ⟨fun e h => ⟨rfl, rfl⟩, fun hok => absurd hok (by simp)⟩
              · dsimp only
                refine ⟨fun e h => absurd h (by simp),
                  fun _ => ⟨?_, ?_, ⟨_, rfl⟩, ⟨_, rfl⟩, ⟨_, rfl⟩, ⟨_, rfl⟩, rfl, rfl⟩⟩
                · intro r hr hid
                  simp only [dbMarkSignalAsExecuted, dbCreateOrder, List.mem_map] at hr
                  obtain ⟨r0, _, hr0⟩ := hr
                  by_cases hcase : r0.id = signal.id
                  · rw [← hr0]; simp [hcase]
                  · rw [← hr0] at hid; simp [hcase] at hid
                · intro r hr
                  simp only [getPendingSignals, dbMarkSignalAsExecuted, dbCreateOrder,
                    List.mem_filter, List.mem_map] at hr
                  obtain ⟨⟨r0, _, hr0⟩, hpend⟩ := hr
                  intro hid
                  by_cases hcase : r0.id = signal.id
                  · rw [← hr0] at hpend; simp [hcase] at hpend
                  · rw [← hr0] at hid; simp [hcase] at hid

/-- C9: two signals that agree on symbol and direction but differ arbitrarily
in `positionSizeUsd` and `leverage` lead to identical submitted orders under
the same exchange responses, and every non-reduce-only (new) order's quantity
is `calculateOrderQty` of the fetched instrument info, the fetched price and
the configured `DEFAULT_TRADE_SIZE_USD` — never of the signal's own sizing
fields. -/
theorem order_qty_independent_of_position_sizing (env : ExchangeEnv)
    (s1 s2 : TradeSignal) (db1 db2 : Db)
    (hsym : s1.symbol = s2.symbol) (hdir : s1.direction = s2.direction) :
    ordersOf (executeSignalOrder env s1 db1).2.1 =
      ordersOf (executeSignalOrder env s2 db2).2.1
    ∧ ∀ o ∈ ordersOf (executeSignalOrder env s1 db1).2.1, o.reduceOnly = false →
        ∃ price info, env.currentPrice = .ok price ∧ env.instrumentInfo = .ok info
          ∧ o.qty = calculateOrderQty info s1.symbol price DEFAULT_TRADE_SIZE_USD := by
  unfold executeSignalOrder
  rw [hsym, hdir]
  rcases hpos : env.position with e | positionOpt
  · simp [ordersOf]
  · rcases hphase : closePhase env s2.symbol positionOpt with ⟨res, closeEvents⟩
    dsimp only
    rw [hphase]
    have hclosed : ∀ o ∈ ordersOf closeEvents, o.reduceOnly = true := by
      have := closePhase_orders_reduceOnly env s2.symbol positionOpt
      rw [hphase] at this
      exact this
    simp only [ordersOf] at hclosed
    rcases res with e | u
    · refine ⟨rfl, ?_⟩
      intro o ho hro
      simp only [ordersOf, List.filterMap_cons] at ho
      exact absurd (hclosed o ho) (by simp [hro])
    · rcases hprice : env.currentPrice with e | price
      · refine ⟨rfl, ?_⟩
        intro o ho hro
        simp only [ordersOf, List.filterMap_cons, List.filterMap_append] at ho
        simp only [List.mem_append] at ho
        rcases ho with ho | ho
        · exact absurd (hclosed o ho) (by simp [hro])
        · simp at ho
      · rcases hinfo : env.instrumentInfo with e | info
        · refine ⟨rfl, ?_⟩
          intro o ho hro
          simp only [ordersOf, List.filterMap_cons, List.filterMap_append] at ho
          simp only [List.mem_append] at ho
          rcases ho with ho | ho
          · exact absurd (hclosed o ho) (by simp [hro])
          · simp at ho
        · dsimp only
          rcases hoid : env.newOrderId with e | orderId <;>
            [skip; rcases hco : env.createOrderRes with e' | u' <;>
              [skip; rcases hme : env.markExecutedRes with e'' | u'']] <;>
          · constructor
            · simp [ordersOf]
            · intro o ho hro
              simp only [ordersOf, List.filterMap_cons, List.filterMap_append,
                List.filterMap_nil, List.mem_append, List.mem_cons, List.not_mem_nil,
                or_false] at ho
              rcases ho with ho | ho
              · exact absurd (hclosed o ho) (by simp [hro])
              · subst ho
                refine ⟨price, info, rfl, rfl, ?_⟩
                unfold newOrderFor
                split_ifs <;> rfl

/-- C9 witness: the same symbol and direction with sizing fields 100 USD at
5x versus 9999 USD at 1x submit identical orders, and the new order's
quantity comes from the configured trade size. -/
theorem order_qty_independent_of_position_sizing_witness :
    ordersOf (executeSignalOrder witEnv witSellSignal witDb).2.1 =
      ordersOf (executeSignalOrder witEnv witSellSignalOtherSizing witDb).2.1
    ∧ ∀ o ∈ ordersOf (executeSignalOrder witEnv witSellSignal witDb).2.1,
        o.reduceOnly = false →
        ∃ price info, witEnv.currentPrice = .ok price
          ∧ witEnv.instrumentInfo = .ok info
          ∧ o.qty = calculateOrderQty info witSellSignal.symbol price DEFAULT_TRADE_SIZE_USD :=
  order_qty_independent_of_position_sizing witEnv witSellSignal witSellSignalOtherSizing
    witDb witDb rfl rfl

/-- Every signal the RSI block emits has strength 7 or 8. -/
theorem mem_rsiSignals_strength (symbol timeframe : String) (ts : ℤ) (cp : ℚ)
    (candles : List Candle) (rs : List RSIResult) :
    ∀ s ∈ rsiSignals symbol timeframe ts cp candles rs,
      s.strength = 7 ∨ s.strength = 8 := by
  intro s hs
  unfold rsiSignals at hs
  rcases hl : rs.getLast? with _ | last <;> rw [hl] at hs <;> dsimp only at hs
  · simp at hs
  · simp only [List.mem_append] at hs
    rcases hs with h | h <;> split_ifs at h <;>
      simp only [List.mem_append, List.mem_singleton, List.not_mem_nil, or_false,
        false_or, List.mem_cons] at h <;>
      (try rcases h with h | h) <;> (try subst h) <;> simp

/-- Every signal the MACD block emits has strength 6. -/
theorem mem_macdSignals_strength (symbol timeframe : String) (ts : ℤ) (cp : ℚ)
    (ms : List MACDResult) :
    ∀ s ∈ macdSignals symbol timeframe ts cp ms, s.strength = 6 := by
  intro s hs
  unfold macdSignals at hs
  rcases hl : ms.getLast? with _ | last <;> rw [hl] at hs <;> dsimp only at hs
  · simp at hs
  · split_ifs at hs <;> simp_all

/-- Every signal the Bollinger block emits has strength 5 or 7. -/
theorem mem_bollingerSignals_strength (symbol timeframe : String) (ts : ℤ) (cp : ℚ)
    (bs : List BollingerBandsResult) :
    ∀ s ∈ bollingerSignals symbol timeframe ts cp bs,
      s.strength = 5 ∨ s.strength = 7 := by
  intro s hs
  unfold bollingerSignals at hs
  rcases hl : bs.getLast? with _ | last <;> rw [hl] at hs <;> dsimp only at hs
  · simp at hs
  · simp only [List.mem_append] at hs
    rcases hs with h | h <;> split_ifs at h <;> simp_all

/-- A signal emitted for one EMA-cross entry carries that entry's strength. -/
theorem mem_emaSignalFor_strength (symbol timeframe : String) (ts : ℤ) (cp st : ℚ)
    (periods : String) (cross : EMACrossSummary) :
    ∀ s ∈ emaSignalFor symbol timeframe ts cp periods st cross, s.strength = st := by
  intro s hs
  unfold emaSignalFor at hs
  split_ifs at hs <;> simp_all

/-- Every signal the EMA block emits has strength 5, 7 or 9. -/
theorem mem_emaSignals_strength (symbol timeframe : String) (ts : ℤ) (cp : ℚ)
    (e0 e1 e2 : EMACrossSummary) :
    ∀ s ∈ emaSignals symbol timeframe ts cp e0 e1 e2,
      s.strength = 5 ∨ s.strength = 7 ∨ s.strength = 9 := by
  intro s hs
  unfold emaSignals at hs
  simp only [List.mem_append] at hs
  rcases hs with (h | h) | h
  · exact Or.inl (mem_emaSignalFor_strength symbol timeframe ts cp 5 ("9/21") e0 s h)
  · exact Or.inr (Or.inl (mem_emaSignalFor_strength symbol timeframe ts cp 7 ("21/50") e1 s h))
  · exact Or.inr (Or.inr (mem_emaSignalFor_strength symbol timeframe ts cp 9 ("50/200") e2 s h))

/-- Every signal the volume block emits has strength 6. -/
theorem mem_volumeSignals_strength (symbol timeframe : String) (ts : ℤ) (cp : ℚ)
    (candles : List Candle) (vs : List VolumeAnalysisResult) :
    ∀ s ∈ volumeSignals symbol timeframe ts cp candles vs, s.strength = 6 := by
  intro s hs
  unfold volumeSignals at hs
  rcases hl : vs.getLast? with _ | last <;> rw [hl] at hs <;> dsimp only at hs
  · simp at hs
  · split_ifs at hs <;> simp_all

/-- Every signal `analyzeMarket` can emit has strength between 5 and 9. -/
theorem mem_buildSignals_strength (symbol timeframe : String) (ts : ℤ) (cp : ℚ)
    (candles : List Candle) (rs : List RSIResult) (ms : List MACDResult)
    (bs : List BollingerBandsResult) (e0 e1 e2 : EMACrossSummary)
    (vs : List VolumeAnalysisResult) :
    ∀ s ∈ buildSignals symbol timeframe ts cp candles rs ms bs e0 e1 e2 vs,
      5 ≤ s.strength ∧ s.strength ≤ 9 := by
  intro s hs
  unfold buildSignals at hs
  simp only [List.mem_append] at hs
  rcases hs with (((h | h) | h) | h) | h
  · rcases mem_rsiSignals_strength symbol timeframe ts cp candles rs s h with h' | h' <;>
      rw [h'] <;> norm_num
  · rw [mem_macdSignals_strength symbol timeframe ts cp ms s h]; norm_num
  · rcases mem_bollingerSignals_strength symbol timeframe ts cp bs s h with h' | h' <;>
      rw [h'] <;> norm_num
  · rcases mem_emaSignals_strength symbol timeframe ts cp e0 e1 e2 s h with h' | h' | h' <;>
      rw [h'] <;> norm_num
  · rw [mem_volumeSignals_strength symbol timeframe ts cp candles vs s h]; norm_num

/-- The source's strength accumulator is the sum of the strengths. -/
theorem foldl_add_strength (l : List MarketSignal) (a : ℚ) :
    l.foldl (fun acc s => acc + s.strength) a = a + (l.map (·.strength)).sum := by
  induction l generalizing a with
  | nil => simp
  | cons x xs ih => simp [ih, add_assoc]

/-- Bounded strengths bound the total. -/
theorem sum_strength_bounds (l : List MarketSignal)
    (h : ∀ s ∈ l, 5 ≤ s.strength ∧ s.strength ≤ 9) :
    5 * (l.length : ℚ) ≤ (l.map (·.strength)).sum
    ∧ (l.map (·.strength)).sum ≤ 9 * (l.length : ℚ) := by
  induction l with
  | nil => simp
  | cons x xs ih =>
    obtain ⟨h1, h2⟩ := h x (by simp)
    obtain ⟨ih1, ih2⟩ := ih fun s hs => h s (by simp [hs])
    constructor <;> simp only [List.map_cons, List.sum_cons, List.length_cons] <;>
      push_cast <;> linarith

/-- The rounded score of a quantity in [50, 90] lies in [50, 100]. -/
theorem jsRound_bounds (q : ℚ) (h1 : 50 ≤ q) (h2 : q ≤ 90) :
    50 ≤ jsRound q ∧ jsRound q ≤ 100 := by
  unfold jsRound
  constructor
  · exact Int.le_floor.mpr (by push_cast; linarith)
  · have hlt : ⌊q + 1/2⌋ < 101 := Int.floor_lt.mpr (by push_cast; linarith)
    omega

/-- The summary's confidence score, for a signal list whose strengths lie in
[5,9]: in [0,100]; the rounding formula on a nonempty list; zero exactly on
the empty list; and at least 50 on a nonempty list. -/
theorem summaryOf_spec (signals : List MarketSignal)
    (h : ∀ s ∈ signals, 5 ≤ s.strength ∧ s.strength ≤ 9) :
    (0 ≤ (summaryOf signals).confidenceScore ∧ (summaryOf signals).confidenceScore ≤ 100)
    ∧ (signals ≠ [] → (summaryOf signals).confidenceScore =
        ((jsRound (100 * (signals.map (·.strength)).sum / (10 * signals.length)) : ℤ) : ℚ))
    ∧ ((summaryOf signals).confidenceScore = 0 ↔ signals = [])
    ∧ (signals ≠ [] → 50 ≤ (summaryOf signals).confidenceScore) := by
  rcases hsig : signals with _ | ⟨s0, rest⟩
  · refine ⟨⟨?_, ?_⟩, by simp, by simp [summaryOf], by simp⟩ <;> simp [summaryOf]
  · rw [← hsig]
    have hne : signals ≠ [] := by rw [hsig]; simp
    have hlen : 0 < signals.length := by rw [hsig]; simp
    have hQ : (0 : ℚ) < signals.length := by exact_mod_cast hlen
    obtain ⟨hlow, hhigh⟩ := sum_strength_bounds signals h
    have hcond : (0 : ℚ) < (signals.length : ℚ) * 10 := by positivity
    have hscore : (summaryOf signals).confidenceScore =
        ((jsRound ((signals.map (·.strength)).sum / ((signals.length : ℚ) * 10) * 100) : ℤ) : ℚ) := by
      simp only [summaryOf]
      rw [if_pos hcond, foldl_add_strength, zero_add]
    have hform : (signals.map (·.strength)).sum / ((signals.length : ℚ) * 10) * 100 =
        100 * (signals.map (·.strength)).sum / (10 * signals.length) := by
      ring
    have h50 : 50 ≤ (signals.map (·.strength)).sum / ((signals.length : ℚ) * 10) * 100 := by
      rw [div_mul_eq_mul_div, le_div_iff hcond]
      linarith
    have h90 : (signals.map (·.strength)).sum / ((signals.length : ℚ) * 10) * 100 ≤ 90 := by
      rw [div_mul_eq_mul_div, div_le_iff hcond]
      linarith
    obtain ⟨hj50, hj100⟩ := jsRound_bounds _ h50 h90
    have hc50 : (50 : ℚ) ≤ (summaryOf signals).confidenceScore := by
      rw [hscore]; exact_mod_cast hj50
    have hc100 : (summaryOf signals).confidenceScore ≤ 100 := by
      rw [hscore]; exact_mod_cast hj100
    refine ⟨⟨by linarith, hc100⟩, fun _ => ?_, ?_, fun _ => hc50⟩
    · rw [hscore, hform]
    · constructor
      · intro h0; rw [h0] at hc50; norm_num at hc50
      · intro h0; exact absurd h0 hne

/-- Inversion of a successful `analyzeMarket` run: the result's signals are a
`buildSignals` list and its summary is `summaryOf` of them. -/
theorem analyzeMarket_ok_fields (symbol timeframe : String) (candles : List Candle)
    (r : AnalysisResult) (h : analyzeMarket symbol timeframe candles = .ok r) :
    ∃ ts cp rs ms bs e0 e1 e2 vs,
      r.signals = buildSignals symbol timeframe ts cp candles rs ms bs e0 e1 e2 vs
      ∧ r.summary = summaryOf r.signals := by
  unfold analyzeMarket at h
  split at h
  · simp at h
  · split at h
    · simp only [Except.ok.injEq] at h
      subst h
      exact ⟨_, _, _, _, _, _, _, _, _, rfl, rfl⟩
    · simp at h
    · simp at h
    · simp at h
    · simp at h

/-- C2: for every accepted candle series, the confidence score lies in
[0,100], equals `round(100 * Σstrength / (10 * signalCount))` on a nonempty
signal list, and is 0 exactly when the signal list is empty. -/
theorem analyzeMarket_confidenceScore_spec (symbol timeframe : String)
    (candles : List Candle) (r : AnalysisResult)
    (h : analyzeMarket symbol timeframe candles = .ok r) :
    0 ≤ r.summary.confidenceScore ∧ r.summary.confidenceScore ≤ 100
    ∧ (r.signals ≠ [] → r.summary.confidenceScore =
        ((jsRound (100 * (r.signals.map (·.strength)).sum / (10 * r.signals.length)) : ℤ) : ℚ))
    ∧ (r.summary.confidenceScore = 0 ↔ r.signals = []) := by
  obtain ⟨ts, cp, rs, ms, bs, e0, e1, e2, vs, hsig, hsum⟩ :=
    analyzeMarket_ok_fields symbol timeframe candles r h
  have hstr : ∀ s ∈ r.signals, 5 ≤ s.strength ∧ s.strength ≤ 9 := by
    rw [hsig]
    exact mem_buildSignals_strength symbol timeframe ts cp candles rs ms bs e0 e1 e2 vs
  have hspec := summaryOf_spec r.signals hstr
  rw [hsum]
  exact ⟨hspec.1.1, hspec.1.2, hspec.2.1, hspec.2.2.1⟩

set_option maxRecDepth 200000 in
/-- C2 witness: fifty constant candles are accepted and the resulting score
satisfies the specification. -/
theorem analyzeMarket_confidenceScore_spec_witness :
    0 ≤ witAnalysis.summary.confidenceScore ∧ witAnalysis.summary.confidenceScore ≤ 100
    ∧ (witAnalysis.signals ≠ [] → witAnalysis.summary.confidenceScore =
        ((jsRound (100 * (witAnalysis.signals.map (·.strength)).sum /
          (10 * witAnalysis.signals.length)) : ℤ) : ℚ))
    ∧ (witAnalysis.summary.confidenceScore = 0 ↔ witAnalysis.signals = []) :=
  analyzeMarket_confidenceScore_spec ("BTCUSDT") ("1h") witCandles witAnalysis rfl

/-- C10: every signal `analyzeMarket` emits has strength at least 5, so a
nonempty signal list forces a confidence score of at least 50 — the score
never falls strictly between 0 and 50. -/
theorem analyzeMarket_nonempty_score_ge_50 (symbol timeframe : String)
    (candles : List Candle) (r : AnalysisResult)
    (h : analyzeMarket symbol timeframe candles = .ok r) (hne : r.signals ≠ []) :
    50 ≤ r.summary.confidenceScore := by
  obtain ⟨ts, cp, rs, ms, bs, e0, e1, e2, vs, hsig, hsum⟩ :=
    analyzeMarket_ok_fields symbol timeframe candles r h
  have hstr : ∀ s ∈ r.signals, 5 ≤ s.strength ∧ s.strength ≤ 9 := by
    rw [hsig]
    exact mem_buildSignals_strength symbol timeframe ts cp candles rs ms bs e0 e1 e2 vs
  have hspec := summaryOf_spec r.signals hstr
  rw [hsum]
  exact hspec.2.2.2 hne

set_option maxRecDepth 200000 in
/-- C10 witness: on the fifty constant candles the signal list is nonempty
and the score is at least 50. -/
theorem analyzeMarket_nonempty_score_ge_50_witness :
    50 ≤ witAnalysis.summary.confidenceScore :=
  analyzeMarket_nonempty_score_ge_50 ("BTCUSDT") ("1h") witCandles witAnalysis rfl
    (by decide)

end CTA
